import Mathlib

/-!
Shallow embedding of `src/Project9/1.cpp`: a domain error hierarchy
(`ProgramError` and its four subclasses) together with an owning
pointer container `PointerArray<T>`.

Exceptions are modelled as values of an inductive type; a fallible
operation returns the exception through an `Except`/`Option` channel
instead of unwinding the stack.  Heap-allocated `T` instances are
modelled by their values; ownership of an instance by a container is
membership in its `pointers` list.  `size_t` indices and sizes are
modelled as `Nat`.
-/

namespace Project9

/-- The four concrete subclasses of `ProgramError` in the source,
modelled as a kind tag (each subclass carries no data of its own, only
a fixed message passed to the base class constructor). -/
inductive ProgramErrorKind : Type where
  | insufficientPrivileges
  | conversion
  | valueConversion
  | interfaceCast
deriving DecidableEq, Repr

/-- The fixed message each subclass constructor passes to
`ProgramError(msg)` in the source. -/
def kindMessage : ProgramErrorKind → String
  | ProgramErrorKind.insufficientPrivileges =>
      "Недостаточно привилегий для выполнения операции"
  | ProgramErrorKind.conversion =>
      "Ошибка преобразования типов данных"
  | ProgramErrorKind.valueConversion =>
      "Невозможно преобразовать значение"
  | ProgramErrorKind.interfaceCast =>
      "Невозможно привести к интерфейсу"

/-- A C++ exception object as thrown by this program: either a
`ProgramError` subclass instance (tagged with which subclass it is and
carrying the `message` field of the base class), a
`std::invalid_argument`, or a `std::out_of_range`. -/
inductive CppException : Type where
  | programError (kind : ProgramErrorKind) (message : String)
  | invalidArgument (message : String)
  | outOfRange (message : String)
deriving DecidableEq, Repr

/-- `what()` — the message carried by the exception. -/
def CppException.what : CppException → String
  | CppException.programError _ m => m
  | CppException.invalidArgument m => m
  | CppException.outOfRange m => m

/-- Throwing one of the four subclasses, e.g.
`throw InsufficientPrivilegesError()`: the object constructed carries
the subclass's fixed message. -/
def throwKind (k : ProgramErrorKind) : CppException :=
  CppException.programError k (kindMessage k)

/-- Whether a handler `catch (const ProgramError&)` matches the
exception: it matches any of the four subclasses (they all derive
publicly from `ProgramError`) and nothing else. -/
def matchesProgramError : CppException → Bool
  | CppException.programError _ _ => true
  | _ => false

/-- Whether a handler for the specific subclass tagged `k`
(e.g. `catch (const ConversionError&)`) matches the exception. -/
def matchesSpecificKind (k : ProgramErrorKind) : CppException → Bool
  | CppException.programError k2 _ => k2 = k
  | _ => false

/-- `PointerArray<T>`: owns a `std::vector<T*>` of heap-allocated
instances.  Each owned instance is modelled by its value; the vector
of owning pointers is modelled as the list of those values in index
order.  The capacity hint of the `PointerArray(size_t)` constructor
only pre-reserves storage and is not observable state. -/
structure PointerArray (T : Type) where
  pointers : List T
deriving DecidableEq, Repr

variable {T : Type}

/-- `size()`: `pointers.size()`. -/
def PointerArray.size (a : PointerArray T) : Nat :=
  a.pointers.length

/-- `empty()`: `pointers.empty()`. -/
def PointerArray.isEmptyQ (a : PointerArray T) : Bool :=
  a.pointers.isEmpty

/-- `add(T* ptr)`: a possibly-null pointer argument is an `Option T`.
Throws `std::invalid_argument("Передан нулевой указатель")` when the
pointer is null, otherwise `pointers.push_back(ptr)`.  Returns the
container after the call together with the thrown exception, if any. -/
def PointerArray.add (a : PointerArray T) (ptr : Option T) :
    PointerArray T × Option CppException :=
  match ptr with
  | none => (a, some (CppException.invalidArgument "Передан нулевой указатель"))
  | some t => (PointerArray.mk (a.pointers ++ [t]), none)

/-- `emplace(Args&&... args)`: first evaluates
`new T(std::forward<Args>(args)...)` — modelled by its outcome
`construct : Except E T`, where an `Except.error` is an exception the
constructor of `T` threw — and only then `pointers.push_back(...)`.
If the constructor throws, `push_back` is never reached and the
exception propagates.  Returns the container after the call together
with the propagated exception, if any. -/
def PointerArray.emplace {E : Type} (a : PointerArray T) (construct : Except E T) :
    PointerArray T × Option E :=
  match construct with
  | Except.error e => (a, some e)
  | Except.ok t => (PointerArray.mk (a.pointers ++ [t]), none)

/-- `clear()`: `delete`s every owned pointer, then `pointers.clear()`.
Returns the list of destroyed instances (in destruction order)
together with the container after the call.  It has no failure
channel: destruction cannot fail. -/
def PointerArray.clear (a : PointerArray T) : List T × PointerArray T :=
  (a.pointers, PointerArray.mk [])

/-- `operator[](size_t)` (mutable form): throws `std::out_of_range`
with a message naming the index and the size when
`index >= pointers.size()`, otherwise returns `*pointers[index]`. -/
def PointerArray.subscript (a : PointerArray T) (index : Nat) :
    Except CppException T :=
  if h : index ≥ a.pointers.length then
    Except.error (CppException.outOfRange
      ("Индекс " ++ toString index ++
        " выходит за границы массива размера " ++ toString a.pointers.length))
  else
    Except.ok (a.pointers.get ⟨index, Nat.lt_of_not_le h⟩)

/-- `operator[](size_t) const` (read-only form): identical logic to
the mutable form. -/
def PointerArray.subscriptConst (a : PointerArray T) (index : Nat) :
    Except CppException T :=
  if h : index ≥ a.pointers.length then
    Except.error (CppException.outOfRange
      ("Индекс " ++ toString index ++
        " выходит за границы массива размера " ++ toString a.pointers.length))
  else
    Except.ok (a.pointers.get ⟨index, Nat.lt_of_not_le h⟩)

/-- `get(size_t) const`: returns `nullptr` when
`index >= pointers.size()`, otherwise the stored pointer.  A total
function: it never throws. -/
def PointerArray.get (a : PointerArray T) (index : Nat) : Option T :=
  if h : index ≥ a.pointers.length then
    none
  else
    some (a.pointers.get ⟨index, Nat.lt_of_not_le h⟩)

/-- `PointerArray(PointerArray&& other)`: the member initializer
`pointers(std::move(other.pointers))` steals the vector's buffer,
leaving `other.pointers` empty.  Returns the newly constructed
container together with the moved-from source. -/
def PointerArray.moveConstruct (other : PointerArray T) :
    PointerArray T × PointerArray T :=
  (PointerArray.mk other.pointers, PointerArray.mk [])

/-- The program's store of `PointerArray` objects: container identity
(the address compared by `this != &other`) is a `Nat` id, and
`arrays i` is the `pointers` vector of the container at id `i`. -/
structure Mem (T : Type) where
  arrays : Nat → List T

/-- `operator=(PointerArray&& other)` performed on the container at id
`dst` with source the container at id `src`.  When `this != &other` it
first `clear()`s the destination (destroying its owned instances) and
then move-assigns the source's vector, leaving the source empty; a
self-assignment is a no-op.  Returns the list of instances destroyed
by the embedded `clear()` together with the updated store. -/
def Mem.moveAssign (m : Mem T) (dst src : Nat) : List T × Mem T :=
  if dst = src then
    ([], m)
  else
    (m.arrays dst,
      Mem.mk (fun i =>
        if i = dst then m.arrays src
        else if i = src then []
        else m.arrays i))

end Project9

namespace Project9

/-- C3: `add` with a null pointer always throws
`std::invalid_argument` (the generic invalid-argument kind, carrying
the fixed message) and returns with the container — its size and its
contents — unchanged. -/
theorem add_null_rejected (T : Type) (a : PointerArray T) :
    a.add none = (a, some (CppException.invalidArgument "Передан нулевой указатель"))
      ∧ (a.add none).1.size = a.size := by
  constructor
  · rfl
  · rfl

/-- C4: if the constructor of `T` invoked by `emplace` throws, the
exception propagates to the caller unchanged and the container is
exactly as before the call: same size, same entries, and no
partially-constructed instance owned. -/
theorem emplace_ctor_failure_propagates (T E : Type) (a : PointerArray T) (e : E) :
    a.emplace (Except.error e) = (a, some e)
      ∧ (a.emplace (Except.error e)).1.size = a.size
      ∧ (a.emplace (Except.error e)).1.pointers = a.pointers := by
  refine ⟨rfl, rfl, rfl⟩

/-- C5: `clear()` destroys every currently-owned instance, resets
size to zero, always succeeds (it has no failure channel), and is
idempotent: a second `clear()` destroys nothing and leaves the
container in the same state as after the first, with size 0 after
either. -/
theorem clear_idempotent (T : Type) (a : PointerArray T) :
    (a.clear).1 = a.pointers
      ∧ (a.clear).2.size = 0
      ∧ ((a.clear).2.clear).1 = []
      ∧ ((a.clear).2.clear).2 = (a.clear).2 := by
  refine ⟨rfl, rfl, rfl, rfl⟩

/-- C1: for every container and every index `i` (a `size_t`, hence
`0 <= i` always), both forms of `operator[]` succeed and return the
element at position `i` iff `i < size()`; otherwise they throw
`std::out_of_range` whose message reports both the offending index and
the current size. -/
theorem subscript_bounds_contract (T : Type) (a : PointerArray T) (i : Nat) :
    ((∃ x, a.subscript i = Except.ok x) ↔ i < a.size)
      ∧ ((∃ x, a.subscriptConst i = Except.ok x) ↔ i < a.size)
      ∧ (∀ h : i < a.pointers.length,
          a.subscript i = Except.ok (a.pointers.get ⟨i, h⟩)
            ∧ a.subscriptConst i = Except.ok (a.pointers.get ⟨i, h⟩))
      ∧ (a.size ≤ i →
          a.subscript i = Except.error (CppException.outOfRange
              ("Индекс " ++ toString i ++
                " выходит за границы массива размера " ++ toString a.size))
            ∧ a.subscriptConst i = Except.error (CppException.outOfRange
              ("Индекс " ++ toString i ++
                " выходит за границы массива размера " ++ toString a.size))) := by
  simp only [PointerArray.size]
  by_cases h : i ≥ a.pointers.length
  · have hs : a.subscript i = Except.error (CppException.outOfRange
        ("Индекс " ++ toString i ++
          " выходит за границы массива размера " ++ toString a.pointers.length)) := by
      unfold PointerArray.subscript
      exact dif_pos h
    have hc : a.subscriptConst i = Except.error (CppException.outOfRange
        ("Индекс " ++ toString i ++
          " выходит за границы массива размера " ++ toString a.pointers.length)) := by
      unfold PointerArray.subscriptConst
      exact dif_pos h
    refine ⟨?_, ?_, ?_, ?_⟩
    · constructor
      · rintro ⟨x, hx⟩
        rw [hs] at hx
        exact absurd hx (by simp)
      · intro hlt
        exact absurd hlt (by omega)
    · constructor
      · rintro ⟨x, hx⟩
        rw [hc] at hx
        exact absurd hx (by simp)
      · intro hlt
        exact absurd hlt (by omega)
    · intro hlt
      exact absurd hlt (by omega)
    · intro _
      exact ⟨hs, hc⟩
  · have hlt : i < a.pointers.length := Nat.lt_of_not_le h
    have hs : a.subscript i = Except.ok (a.pointers.get ⟨i, hlt⟩) := by
      unfold PointerArray.subscript
      exact dif_neg h
    have hc : a.subscriptConst i = Except.ok (a.pointers.get ⟨i, hlt⟩) := by
      unfold PointerArray.subscriptConst
      exact dif_neg h
    refine ⟨?_, ?_, ?_, ?_⟩
    · exact ⟨fun _ => hlt, fun _ => ⟨_, hs⟩⟩
    · exact ⟨fun _ => hlt, fun _ => ⟨_, hc⟩⟩
    · intro h2
      exact ⟨hs, hc⟩
    · intro hle
      exact absurd hlt (by omega)

/-- Witness for C1: on a three-element container, index 1 succeeds
with the stored element and index 10 fails with the message reporting
10 and 3. -/
theorem subscript_bounds_contract_witness :
    (PointerArray.mk [10, 20, 30] : PointerArray Nat).subscript 1 = Except.ok 20
      ∧ (PointerArray.mk [10, 20, 30] : PointerArray Nat).subscript 10
          = Except.error (CppException.outOfRange
              "Индекс 10 выходит за границы массива размера 3") := by
  have h1 := (subscript_bounds_contract Nat (PointerArray.mk [10, 20, 30]) 1).2.2.1
    (by decide)
  have h2 := (subscript_bounds_contract Nat (PointerArray.mk [10, 20, 30]) 10).2.2.2
    (by decide)
  exact ⟨h1.1, h2.1⟩

/-- C6: `get(i)` never throws (it is a total function into an
optional pointer) and does not modify the container: it returns the
stored element at position `i` when `i < size()` and `nullptr` when
`i >= size()`. -/
theorem get_never_raises (T : Type) (a : PointerArray T) (i : Nat) :
    ((a.get i).isSome ↔ i < a.size)
      ∧ (∀ h : i < a.pointers.length, a.get i = some (a.pointers.get ⟨i, h⟩))
      ∧ (a.size ≤ i → a.get i = none) := by
  simp only [PointerArray.size]
  by_cases h : i ≥ a.pointers.length
  · have hg : a.get i = none := by
      unfold PointerArray.get
      exact dif_pos h
    refine ⟨?_, ?_, fun _ => hg⟩
    · rw [hg]
      simp
      omega
    · intro hlt
      exact absurd hlt (by omega)
  · have hlt : i < a.pointers.length := Nat.lt_of_not_le h
    have hg : a.get i = some (a.pointers.get ⟨i, hlt⟩) := by
      unfold PointerArray.get
      exact dif_neg h
    refine ⟨?_, fun h2 => hg, ?_⟩
    · rw [hg]
      simp
      omega
    · intro hle
      exact absurd hlt (by omega)

/-- Witness for C6: on a three-element container, `get 2` is the
stored element and `get 3` is null. -/
theorem get_never_raises_witness :
    (PointerArray.mk [10, 20, 30] : PointerArray Nat).get 2 = some 30
      ∧ (PointerArray.mk [10, 20, 30] : PointerArray Nat).get 3 = none := by
  have h1 := (get_never_raises Nat (PointerArray.mk [10, 20, 30]) 2).2.1 (by decide)
  have h2 := (get_never_raises Nat (PointerArray.mk [10, 20, 30]) 3).2.2 (by decide)
  exact ⟨h1, h2⟩

/-- C7: a successful `add` of a non-null pointer and a successful
`emplace` each append exactly one element at the end: no exception is
raised, size increases by one, the new element is at index
`size() - 1`, and every previously stored element keeps its index. -/
theorem append_at_end (T : Type) (a : PointerArray T) (t : T) :
    (a.add (some t)).2 = none
      ∧ (a.add (some t)).1.pointers = a.pointers ++ [t]
      ∧ (a.add (some t)).1.size = a.size + 1
      ∧ (a.add (some t)).1.pointers.get? a.size = some t
      ∧ (a.add (some t)).1.pointers.take a.size = a.pointers
      ∧ (a.emplace ((Except.ok t : Except Unit T))).2 = none
      ∧ (a.emplace ((Except.ok t : Except Unit T))).1.pointers = a.pointers ++ [t]
      ∧ (a.emplace ((Except.ok t : Except Unit T))).1.size = a.size + 1
      ∧ (a.emplace ((Except.ok t : Except Unit T))).1.pointers.get? a.size = some t
      ∧ (a.emplace ((Except.ok t : Except Unit T))).1.pointers.take a.size
          = a.pointers := by
  unfold PointerArray.add PointerArray.emplace PointerArray.size
  refine ⟨rfl, rfl, by simp, ?_, by simp, rfl, rfl, by simp, ?_, by simp⟩
  · simp [List.get?_eq_getElem?, List.getElem?_append_right]
  · simp [List.get?_eq_getElem?, List.getElem?_append_right]

/-- C8: each of the four `ProgramError` subclasses, when thrown,
carries its own fixed descriptive message (the four messages are
pairwise distinct), is caught by a handler for its specific subclass,
and is caught by a `catch (const ProgramError&)` handler for the
common base class. -/
theorem error_taxonomy_catchable (k : ProgramErrorKind) :
    matchesSpecificKind k (throwKind k) = true
      ∧ matchesProgramError (throwKind k) = true
      ∧ (throwKind k).what = kindMessage k
      ∧ kindMessage ProgramErrorKind.insufficientPrivileges
          = "Недостаточно привилегий для выполнения операции"
      ∧ kindMessage ProgramErrorKind.conversion
          = "Ошибка преобразования типов данных"
      ∧ kindMessage ProgramErrorKind.valueConversion
          = "Невозможно преобразовать значение"
      ∧ kindMessage ProgramErrorKind.interfaceCast
          = "Невозможно привести к интерфейсу"
      ∧ (List.map kindMessage
          [ProgramErrorKind.insufficientPrivileges, ProgramErrorKind.conversion,
            ProgramErrorKind.valueConversion, ProgramErrorKind.interfaceCast]).Nodup := by
  refine ⟨?_, rfl, rfl, rfl, rfl, rfl, rfl, by decide⟩
  cases k <;> rfl

/-- C10: move-assigning a container into itself (`dst = src`, the
`this != &other` guard fails) is a no-op: no element is destroyed and
the whole store — in particular that container's size and owned
elements — is unchanged. -/
theorem move_self_assign_noop (T : Type) (m : Mem T) (i : Nat) :
    m.moveAssign i i = ([], m) := by
  simp [Mem.moveAssign]

/-- C2: moving a container A into B — by move construction, or by move
assignment between distinct containers — gives B exactly A's former
elements (same size, each element at its former index unchanged),
leaves A with size 0 owning no instances, and A remains fully usable:
a subsequent `emplace` on A succeeds and appends normally. -/
theorem move_transfer (T : Type) (a : PointerArray T) (t : T)
    (m : Mem T) (dst src : Nat) (h : dst ≠ src) :
    (a.moveConstruct).1.pointers = a.pointers
      ∧ (a.moveConstruct).1.size = a.size
      ∧ (a.moveConstruct).2.size = 0
      ∧ (a.moveConstruct).2.emplace (Except.ok t : Except Unit T)
          = (PointerArray.mk [t], none)
      ∧ (m.moveAssign dst src).2.arrays dst = m.arrays src
      ∧ ((m.moveAssign dst src).2.arrays dst).length = (m.arrays src).length
      ∧ (m.moveAssign dst src).2.arrays src = []
      ∧ (PointerArray.mk ((m.moveAssign dst src).2.arrays src)
            : PointerArray T).emplace (Except.ok t : Except Unit T)
          = (PointerArray.mk [t], none) := by
  have hm : (m.moveAssign dst src).2.arrays dst = m.arrays src := by
    simp [Mem.moveAssign, h]
  have hsrc : (m.moveAssign dst src).2.arrays src = [] := by
    simp [Mem.moveAssign, h, Ne.symm h]
  refine ⟨rfl, rfl, rfl, rfl, hm, by rw [hm], hsrc, ?_⟩
  rw [hsrc]
  rfl

/-- Witness for C2: moving the three-element container at id 0 into
the distinct container at id 1 makes id 1 own the three elements and
leaves id 0 empty. -/
theorem move_transfer_witness :
    ((Mem.mk (fun i => if i = 0 then [10, 20, 30] else []) : Mem Nat).moveAssign 1 0).2.arrays 1
        = [10, 20, 30]
      ∧ ((Mem.mk (fun i => if i = 0 then [10, 20, 30] else []) : Mem Nat).moveAssign 1 0).2.arrays 0
        = [] := by
  have h := move_transfer Nat (PointerArray.mk [10, 20, 30]) 7
    (Mem.mk (fun i => if i = 0 then [10, 20, 30] else [])) 1 0 (by decide)
  exact ⟨h.2.2.2.2.1, h.2.2.2.2.2.2.1⟩

/-- C9: move assignment from a container at id `src` into a distinct,
non-empty destination at id `dst` first destroys exactly the elements
the destination previously owned; afterwards the destination owns
exactly the source's former elements, so its size is the source's
former size, not the sum of the two. -/
theorem move_assign_destroys_dst (T : Type) (m : Mem T) (dst src : Nat)
    (h : dst ≠ src) (_hne : m.arrays dst ≠ []) :
    (m.moveAssign dst src).1 = m.arrays dst
      ∧ (m.moveAssign dst src).2.arrays dst = m.arrays src
      ∧ ((m.moveAssign dst src).2.arrays dst).length = (m.arrays src).length := by
  have hd : (m.moveAssign dst src).1 = m.arrays dst := by
    simp [Mem.moveAssign, h]
  have hm : (m.moveAssign dst src).2.arrays dst = m.arrays src := by
    simp [Mem.moveAssign, h]
  exact ⟨hd, hm, by rw [hm]⟩

/-- Witness for C9: with a two-element destination at id 0 and a
three-element source at id 1, the move assignment destroys the two
elements and the destination ends up with the source's three. -/
theorem move_assign_destroys_dst_witness :
    ((Mem.mk (fun i => if i = 0 then [1, 2] else [3, 4, 5]) : Mem Nat).moveAssign 0 1).1
        = [1, 2]
      ∧ ((Mem.mk (fun i => if i = 0 then [1, 2] else [3, 4, 5]) : Mem Nat).moveAssign 0 1).2.arrays 0
        = [3, 4, 5] := by
  have h := move_assign_destroys_dst Nat
    (Mem.mk (fun i => if i = 0 then [1, 2] else [3, 4, 5])) 0 1 (by decide) (by decide)
  exact ⟨h.1, h.2.1⟩

end Project9
